import Mathlib

/-!
Verification of the Travel Drink Generator recommendation core
(`travel_drink_app.py`) against its natural-language specification.

The shallow embedding below translates the pure recommendation pipeline:
the nutrition catalog (`BASE_LIBRARY`, `MIXERS`), the recipe library
(`PRESET_COCKTAILS`, `MOCKTAILS`), profile building
(`build_drink_profile`), candidate generation (`generate_candidates`),
scoring (`score_drink`), fallback advisory (`_fallback_suggestions`,
here `fallback_suggestions`) and plan assembly (`build_plan`,
`compute_plan`).  Machine floats are modelled as exact rationals; Python
`round` (round half to even) is `pyRound`, Python `int()` truncation is
`pyInt`.  Preference dictionaries are modelled by the `Prefs` structure
whose optional fields mirror `prefs.get(key, default)` lookups.
-/

/-- Python `round` on a rational: round half to even. -/
def pyRound (q : ℚ) : ℤ :=
  let f : ℤ := ⌊q⌋
  let r : ℚ := q - f
  if r < 1/2 then f
  else if 1/2 < r then f + 1
  else if f % 2 = 0 then f else f + 1

/-- Python `round(x, 1)`: round to one decimal place, half to even. -/
def pyRound1 (q : ℚ) : ℚ :=
  ((pyRound (q * 10) : ℚ)) / 10

/-- Python `int()` on a numeric value: truncation toward zero. -/
def pyInt (q : ℚ) : ℤ :=
  if q < 0 then ⌈q⌉ else ⌊q⌋

/-- Does the character list `pat` match the front of `s`? -/
def matchFront : List Char → List Char → Bool
  | [], _ => true
  | _ :: _, [] => false
  | a :: as, b :: bs => a == b && matchFront as bs

/-- Does `pat` occur as a contiguous run inside `s`? -/
def matchSub (pat : List Char) : List Char → Bool
  | [] => pat.isEmpty
  | c :: rest => matchFront pat (c :: rest) || matchSub pat rest

/-- Python `pat in s` on strings: substring test. -/
def strContains (s pat : String) : Bool :=
  matchSub pat.toList s.toList

/-- The decimal literal `0.0` is the rational zero. -/
theorem zeroRatScientific : (0.0 : ℚ) = 0 := by norm_num

/-- `ALC_DENSITY = 0.789` (g/mL). -/
def ALC_DENSITY : ℚ := 0.789

/-- `ALC_KCAL_PER_G = 7.0`. -/
def ALC_KCAL_PER_G : ℚ := 7.0

/-- `OZ_TO_ML = 29.5735`. -/
def OZ_TO_ML : ℚ := 29.5735

/-- The `Drink` dataclass: a base ingredient of the nutrition catalog. -/
structure Drink where
  name : String
  category : String
  serving_oz : ℚ
  abv_pct : ℚ
  extra_cals : ℚ := 0.0
  carbs_g : Option ℚ := none
  sugar_g : Option ℚ := none
  gluten_free : Bool := true
  keto_friendly : Bool := true
  caffeine : Bool := false
  carbonation : Bool := false
  order_script : Option String := none
  deriving DecidableEq, Repr

/-- `Drink.alcohol_kcal`: calories from alcohol by the density formula. -/
def Drink.alcohol_kcal (d : Drink) : ℚ :=
  let ml := d.serving_oz * OZ_TO_ML
  let grams_alc := ml * (d.abv_pct / 100.0) * ALC_DENSITY
  grams_alc * ALC_KCAL_PER_G

/-- `Drink.total_kcal`: Python returns `round(...)`, an integer. -/
def Drink.total_kcal (d : Drink) : ℤ :=
  pyRound (d.alcohol_kcal + d.extra_cals)

/-- One entry of the `MIXERS` table (absent dict keys default to `false`). -/
structure Mixer where
  kcal_per_oz : ℚ
  carbs_per_oz : ℚ
  caffeine : Bool := false
  carbonation : Bool := false
  deriving DecidableEq, Repr

/-- The `MIXERS` dictionary, in source order. -/
def MIXERS : List (String × Mixer) :=
  [ ("soda water", { kcal_per_oz := 0.0, carbs_per_oz := 0.0 }),
    ("diet tonic", { kcal_per_oz := 0.0, carbs_per_oz := 0.0 }),
    ("diet cola", { kcal_per_oz := 0.0, carbs_per_oz := 0.0, caffeine := true }),
    ("light tonic", { kcal_per_oz := 5.0, carbs_per_oz := 1.2 }),
    ("tonic", { kcal_per_oz := 10.0, carbs_per_oz := 2.5 }),
    ("lime juice", { kcal_per_oz := 8.0, carbs_per_oz := 2.6 }),
    ("lemon juice", { kcal_per_oz := 7.0, carbs_per_oz := 2.4 }),
    ("orange juice", { kcal_per_oz := 14.0, carbs_per_oz := 3.5 }),
    ("cranberry juice", { kcal_per_oz := 13.0, carbs_per_oz := 3.3 }),
    ("pineapple juice", { kcal_per_oz := 16.0, carbs_per_oz := 4.0 }),
    ("simple syrup", { kcal_per_oz := 50.0, carbs_per_oz := 12.5 }),
    ("ginger beer", { kcal_per_oz := 12.0, carbs_per_oz := 3.0, carbonation := true }),
    ("diet ginger beer", { kcal_per_oz := 0.0, carbs_per_oz := 0.0, carbonation := true }),
    ("coconut water", { kcal_per_oz := 6.0, carbs_per_oz := 1.5 }) ]

/-- `MIXERS.get(name)`. -/
def mixerFind (name : String) : Option Mixer :=
  (MIXERS.find? (fun x => x.1 == name)).map (fun x => x.2)

/-- The `BASE_LIBRARY` list, in source order. -/
def BASE_LIBRARY : List Drink :=
  [ { name := "Vodka (1.5 oz)", category := "spirit", serving_oz := 1.5, abv_pct := 40,
      gluten_free := true, keto_friendly := true, carbonation := false,
      order_script := some "Vodka, one and a half ounces." },
    { name := "Tequila blanco (1.5 oz)", category := "spirit", serving_oz := 1.5, abv_pct := 40,
      gluten_free := true, keto_friendly := true,
      order_script := some "Tequila blanco, one and a half ounces." },
    { name := "Gin (1.5 oz)", category := "spirit", serving_oz := 1.5, abv_pct := 40,
      gluten_free := true, keto_friendly := true,
      order_script := some "Gin, one and a half ounces." },
    { name := "Whiskey/bourbon (1.5 oz)", category := "spirit", serving_oz := 1.5, abv_pct := 40,
      gluten_free := true, keto_friendly := true,
      order_script := some "Whiskey pour, one and a half ounces." },
    { name := "Rum white (1.5 oz)", category := "spirit", serving_oz := 1.5, abv_pct := 40,
      gluten_free := true, keto_friendly := true,
      order_script := some "White rum, one and a half ounces." },
    { name := "Dry white wine (5 oz)", category := "wine", serving_oz := 5.0, abv_pct := 12,
      extra_cals := 20, carbs_g := some 3.0, sugar_g := some 1.5, carbonation := false,
      order_script := some "Five ounces of dry white wine." },
    { name := "Dry red wine (5 oz)", category := "wine", serving_oz := 5.0, abv_pct := 13,
      extra_cals := 22, carbs_g := some 4.0, sugar_g := some 1.0, carbonation := false,
      order_script := some "Five ounces of dry red wine." },
    { name := "Brut champagne (5 oz)", category := "wine", serving_oz := 5.0, abv_pct := 12,
      extra_cals := 10, carbs_g := some 2.0, sugar_g := some 1.0, carbonation := true,
      order_script := some "A five ounce pour of brut champagne." },
    { name := "Light beer (12 oz)", category := "beer", serving_oz := 12.0, abv_pct := 4.2,
      extra_cals := 20, carbs_g := some 5.0, sugar_g := some 0.0, gluten_free := false,
      keto_friendly := false, carbonation := true,
      order_script := some "A twelve ounce light beer." },
    { name := "Regular lager (12 oz)", category := "beer", serving_oz := 12.0, abv_pct := 5.0,
      extra_cals := 60, carbs_g := some 13.0, sugar_g := some 0.0, gluten_free := false,
      keto_friendly := false, carbonation := true,
      order_script := some "A twelve ounce lager." },
    { name := "Hard seltzer (12 oz)", category := "seltzer", serving_oz := 12.0, abv_pct := 5.0,
      extra_cals := 30, carbs_g := some 2.0, sugar_g := some 1.0, gluten_free := true,
      keto_friendly := true, carbonation := true,
      order_script := some "A twelve ounce hard seltzer." } ]

/-- `find_base`: look a component name up in `BASE_LIBRARY`. -/
def find_base (name : String) : Option Drink :=
  BASE_LIBRARY.find? (fun d => d.name == name)

/-- A recipe: name, (component name, quantity) pairs, tags, order script. -/
structure Recipe where
  name : String
  components : List (String × ℚ)
  tags : List String
  order : String
  deriving DecidableEq, Repr

/-- The `PRESET_COCKTAILS` list, in source order. -/
def PRESET_COCKTAILS : List Recipe :=
  [ { name := "Vodka soda with lime",
      components := [("Vodka (1.5 oz)", 1.0), ("soda water", 6.0), ("lime juice", 0.25)],
      tags := ["lowest-cal", "easy-order", "airport"],
      order := "Vodka soda, tall glass, heavy ice, squeeze of fresh lime. No simple syrup." },
    { name := "Tequila soda with lime",
      components := [("Tequila blanco (1.5 oz)", 1.0), ("soda water", 6.0), ("lime juice", 0.25)],
      tags := ["lowest-cal", "easy-order", "hotel"],
      order := "Tequila soda, tall, fresh lime. No sweetener." },
    { name := "Gin and diet tonic",
      components := [("Gin (1.5 oz)", 1.0), ("diet tonic", 6.0)],
      tags := ["low-cal", "diet-mixer"],
      order := "Gin with diet tonic, tall. Lime wedge." },
    { name := "Whiskey neat",
      components := [("Whiskey/bourbon (1.5 oz)", 1.0)],
      tags := ["zero-carb", "fast"],
      order := "Whiskey neat, one and a half ounces." },
    { name := "Skinny paloma",
      components := [("Tequila blanco (1.5 oz)", 1.0), ("soda water", 4.0), ("lime juice", 0.5)],
      tags := ["mexican", "restaurant"],
      order := "Tequila with soda and fresh lime in a salted glass. No grapefruit soda, no simple syrup." },
    { name := "Skinny mule",
      components := [("Vodka (1.5 oz)", 1.0), ("diet ginger beer", 6.0), ("lime juice", 0.25)],
      tags := ["diet-mixer"],
      order := "Vodka with diet ginger beer, splash of fresh lime. Copper mug if available." },
    { name := "Brut champagne (5 oz)",
      components := [("Brut champagne (5 oz)", 1.0)],
      tags := ["celebration", "moderate"],
      order := "A five ounce pour of brut champagne." },
    { name := "Dry white wine (5 oz)",
      components := [("Dry white wine (5 oz)", 1.0)],
      tags := ["simple", "restaurant"],
      order := "Five ounces of your driest white wine." },
    { name := "Hard seltzer (12 oz)",
      components := [("Hard seltzer (12 oz)", 1.0)],
      tags := ["grab-and-go"],
      order := "A twelve ounce hard seltzer." } ]

/-- The `MOCKTAILS` list, in source order. -/
def MOCKTAILS : List Recipe :=
  [ { name := "Lime soda",
      components := [("soda water", 10.0), ("lime juice", 0.5)],
      tags := ["zero-cal", "hydrate"],
      order := "Soda water with fresh lime in a tall glass." },
    { name := "Diet ginger fizz",
      components := [("diet ginger beer", 8.0), ("lime juice", 0.25)],
      tags := ["zero-cal", "diet-mixer"],
      order := "Diet ginger beer with a squeeze of lime." } ]

/-- `component_kcal_and_carbs`: kcal and carbs for one component amount. -/
def component_kcal_and_carbs (component_name : String) (units : ℚ) : ℚ × ℚ :=
  match find_base component_name with
  | some base => (((base.total_kcal : ℤ) : ℚ) * units, (base.carbs_g.getD 0.0) * units)
  | none =>
    match mixerFind component_name with
    | some mx => (mx.kcal_per_oz * units, mx.carbs_per_oz * units)
    | none => (0.0, 0.0)

/-- The running totals of the `build_drink_profile` loop. -/
structure AccState where
  kcal : ℚ
  carbs : ℚ
  total_volume_oz : ℚ
  alcohol_ml : ℚ
  carbonation : Bool
  caffeine : Bool
  gluten_free : Bool
  keto : Bool
  deriving DecidableEq, Repr

/-- Initial accumulator of the `build_drink_profile` loop. -/
def initAcc : AccState :=
  { kcal := 0, carbs := 0, total_volume_oz := 0, alcohol_ml := 0,
    carbonation := false, caffeine := false, gluten_free := true, keto := true }

/-- One iteration of the `build_drink_profile` loop body. -/
def stepComp (s : AccState) (comp : String × ℚ) : AccState :=
  let comp_name := comp.1
  let amount := comp.2
  let s1 :=
    match find_base comp_name with
    | some base =>
        let vol_ml := base.serving_oz * amount * OZ_TO_ML
        { s with
          total_volume_oz := s.total_volume_oz + base.serving_oz * amount,
          alcohol_ml := s.alcohol_ml + vol_ml * (base.abv_pct / 100.0),
          carbonation := s.carbonation || base.carbonation,
          caffeine := s.caffeine || base.caffeine,
          gluten_free := s.gluten_free && base.gluten_free,
          keto := s.keto && base.keto_friendly }
    | none =>
        let mx := mixerFind comp_name
        { s with
          total_volume_oz := s.total_volume_oz + amount,
          carbonation := s.carbonation || (match mx with | some m => m.carbonation | none => false),
          caffeine := s.caffeine || (match mx with | some m => m.caffeine | none => false) }
  let kc := component_kcal_and_carbs comp_name amount
  { s1 with kcal := s1.kcal + kc.1, carbs := s1.carbs + kc.2 }

/-- The `build_drink_profile` loop over the component list. -/
def buildAcc : List (String × ℚ) → AccState → AccState
  | [], s => s
  | comp :: rest, s => buildAcc rest (stepComp s comp)

/-- The computed nutrition/attribute profile of one recipe. -/
structure Profile where
  name : String
  kcal : ℤ
  carbs_g : ℚ
  abv_pct : ℚ
  order : String
  tags : List String
  carbonation : Bool
  caffeine : Bool
  gluten_free : Bool
  keto : Bool
  deriving DecidableEq, Repr

/-- `build_drink_profile`: aggregate the components of a recipe into a profile. -/
def build_drink_profile (recipe : Recipe) : Profile :=
  let s := buildAcc recipe.components initAcc
  let abv_pct : ℚ :=
    if s.total_volume_oz > 0 then (s.alcohol_ml / (s.total_volume_oz * OZ_TO_ML)) * 100.0 else 0.0
  { name := recipe.name,
    kcal := pyRound s.kcal,
    carbs_g := pyRound1 s.carbs,
    abv_pct := pyRound1 abv_pct,
    order := recipe.order,
    tags := recipe.tags,
    carbonation := s.carbonation,
    caffeine := s.caffeine,
    gluten_free := s.gluten_free,
    keto := s.keto }

/-- Synthetic neat recipes for spirit bases (`generate_candidates` loop 1). -/
def neatRecipes : List Recipe :=
  (BASE_LIBRARY.filter (fun d => d.category == "spirit")).map (fun d =>
    { name := d.name.replace " (1.5 oz)" " neat",
      components := [(d.name, 1.0)],
      tags := ["zero-carb", "simple"],
      order := ((d.name.splitOn " (").headD d.name) ++ " neat, one and a half ounces." })

/-- Standalone wine/seltzer/beer recipes (`generate_candidates` loop 2). -/
def standaloneRecipes : List Recipe :=
  (BASE_LIBRARY.filter (fun d =>
      d.category == "wine" || d.category == "seltzer" || d.category == "beer")).map (fun d =>
    { name := d.name,
      components := [(d.name, 1.0)],
      tags := [d.category],
      order := d.order_script.getD d.name })

/-- The raw recipe list built by `generate_candidates` before filtering. -/
def candidatePool (include_categories : List String) : List Recipe :=
  (if include_categories.contains "mocktail" then MOCKTAILS else [])
    ++ PRESET_COCKTAILS ++ neatRecipes ++ standaloneRecipes

/-- The `matches_category` closure of `generate_candidates`. -/
def matches_category (include_categories : List String) (r : Recipe) : Bool :=
  let cats := include_categories
  let base_names := r.components.map (fun c => c.1)
  if cats.contains "any" then true
  else if (base_names.any (fun nm => ["wine"].any (fun key => strContains nm.toLower key)))
      && cats.contains "wine" then true
  else if (base_names.any (fun nm => ["beer", "lager"].any (fun key => strContains nm.toLower key)))
      && cats.contains "beer" then true
  else if (base_names.any (fun nm => strContains nm.toLower "seltzer"))
      && cats.contains "seltzer" then true
  else if (base_names.any (fun nm =>
        ["vodka", "tequila", "gin", "whiskey", "rum"].any (fun key => strContains nm.toLower key)))
      && cats.contains "spirit" then true
  else if cats.contains "mocktail" && (MOCKTAILS.map (fun m => m.name)).contains r.name then true
  else if cats.contains "cocktail"
      && r.components.any (fun c => (find_base c.1).isSome)
      && r.components.any (fun c => (mixerFind c.1).isSome) then true
  else false

/-- `generate_candidates`: pool construction followed by category filter. -/
def generate_candidates (include_categories : List String) : List Recipe :=
  (candidatePool include_categories).filter (matches_category include_categories)

/-- The preferences dictionary.  An `Option` field models the presence or
absence of the corresponding key; `spirits` models the `"spirits"` key,
which the Python code never reads. -/
structure Prefs where
  categories : List String := []
  spirits : List String := []
  maxKcal : Option ℚ := none
  maxCarbs : Option ℚ := none
  drinkCount : Option ℤ := none
  sugarFreeMixers : Option Bool := none
  allowCaffeine : Option Bool := none
  allowCarbonation : Option Bool := none
  glutenFreeOnly : Option Bool := none
  ketoOnly : Option Bool := none
  prefCategory : String := ""
  deriving DecidableEq, Repr

/-- `score_drink`: desirability score of a profile under preferences. -/
def score_drink (profile : Profile) (prefs : Prefs) : ℚ :=
  let score : ℚ := 100.0
  let kcal := profile.kcal
  let carbs := profile.carbs_g
  let score := score - 0.1 * ((max 0 (kcal - 60) : ℤ) : ℚ)
  let score := score - 1.0 * carbs
  let max_kcal := prefs.maxKcal.getD 999
  let max_carbs := prefs.maxCarbs.getD 999.0
  let score := if (kcal : ℚ) > max_kcal then score - 200 else score
  let score := if carbs > max_carbs then score - 200 else score
  let score := if prefs.sugarFreeMixers.getD false && carbs > 3.0 then score - 50 else score
  let score := if !(prefs.allowCaffeine.getD true) && profile.caffeine then score - 40 else score
  let score := if !(prefs.allowCarbonation.getD true) && profile.carbonation then score - 40
    else score
  let score := if prefs.glutenFreeOnly.getD false && !profile.gluten_free then score - 200
    else score
  let score := if prefs.ketoOnly.getD false && !profile.keto then score - 200 else score
  let pref_cat := prefs.prefCategory
  let score :=
    if pref_cat ≠ "" then
      if profile.tags.contains pref_cat || strContains profile.name.toLower pref_cat then
        score + 5
      else score
    else score
  score

/-- One pacing slot of the plan. -/
structure Pacing where
  slot : ℤ
  instruction : String
  deriving DecidableEq, Repr

/-- The advisory block attached to a fallback plan. -/
structure Advisory where
  message : String
  suggestions : List String
  deriving DecidableEq, Repr

/-- The final plan payload. -/
structure Plan where
  picks : List Profile
  pacing : List Pacing
  recovery : List String
  fallback_used : Bool
  advice : Option Advisory
  pdf_url : Option String
  deriving DecidableEq, Repr

/-- The fixed pacing instruction text. -/
def pacingText : String :=
  "Sip slowly for 45 to 60 minutes, pair with water, and add a pinch of salt if you sweat a lot."

/-- The fixed recovery checklist. -/
def recoveryList : List String :=
  [ "500 to 750 ml water before bed, add electrolytes if you trained.",
    "Protein-forward breakfast, eggs or Greek yogurt, add fruit for potassium.",
    "Zone 2 walk for 20 to 30 minutes to feel normal again.",
    "Avoid driving, and never mix alcohol with sedatives." ]

/-- `build_plan`: format the final plan payload. -/
def build_plan (selected : List Profile) (prefs : Prefs) (fallback_used : Bool)
    (advice : Option Advisory) : Plan :=
  let n0 : ℤ := prefs.drinkCount.getD 1
  let n : ℤ := max 1 (min 4 n0)
  let picks := selected.take n.toNat
  let pacing := (List.range n.toNat).map (fun i =>
    { slot := (i : ℤ) + 1, instruction := pacingText })
  { picks := picks, pacing := pacing, recovery := recoveryList,
    fallback_used := fallback_used, advice := advice, pdf_url := none }

/-- The six fixed fallback suggestion strings, in source order. -/
def sug1 : String :=
  "Increase max calories to ≥ 90 kcal — most spirit + soda combos land 90–110 kcal."

/-- Second fallback suggestion string. -/
def sug2 : String := "Allow up to 2–5 g carbs for dry wine or hard seltzer options."

/-- Third fallback suggestion string. -/
def sug3 : String := "Enable carbonation or include spirits to avoid beer/seltzer conflicts."

/-- Fourth fallback suggestion string. -/
def sug4 : String :=
  "Gluten-free only with beer is restrictive — switch to spirits with soda or brut champagne."

/-- Fifth fallback suggestion string. -/
def sug5 : String := "Keto + beer/wine is tough — prefer spirits with soda water."

/-- Sixth fallback suggestion string. -/
def sug6 : String := "Toggle sugar-free mixers for big calorie savings (diet tonic, soda water)."

/-- The fixed fallback banner message. -/
def fallbackMessage : String :=
  "No exact matches. Showing closest-fit picks based on your limits."

/-- `_fallback_suggestions`: advisory tips when strict filters match nothing. -/
def fallback_suggestions (prefs : Prefs) (categories : List String) : Advisory :=
  let cats := if categories.isEmpty then [] else categories
  let max_kcal : ℤ := pyInt (prefs.maxKcal.getD 999)
  let max_carbs : ℚ := prefs.maxCarbs.getD 999
  let allow_carb := prefs.allowCarbonation.getD true
  let gf_only := prefs.glutenFreeOnly.getD false
  let keto_only := prefs.ketoOnly.getD false
  let suggestions : List String := []
  let suggestions := if max_kcal < 90 then suggestions ++ [sug1] else suggestions
  let suggestions :=
    if max_carbs < 2 ∧ (cats.contains "wine" ∨ cats.contains "seltzer") then
      suggestions ++ [sug2] else suggestions
  let suggestions :=
    if allow_carb = false ∧ (cats.contains "beer" ∨ cats.contains "seltzer") then
      suggestions ++ [sug3] else suggestions
  let suggestions :=
    if gf_only = true ∧ cats.contains "beer" then suggestions ++ [sug4] else suggestions
  let suggestions :=
    if keto_only = true ∧ (cats.contains "beer" ∨ cats.contains "wine") then
      suggestions ++ [sug5] else suggestions
  let suggestions :=
    if prefs.sugarFreeMixers.getD false = false then suggestions ++ [sug6] else suggestions
  { message := fallbackMessage, suggestions := suggestions.take 5 }

/-- `prefs.get("categories") or ["any"]` in `compute_plan`. -/
def effectiveCategories (prefs : Prefs) : List String :=
  if prefs.categories.isEmpty then ["any"] else prefs.categories

/-- Profiles of all candidates, sorted by descending score (stable, as
the Python stable `sorted` with key `-score`). -/
def scoredProfiles (prefs : Prefs) : List Profile :=
  List.insertionSort (fun a b => score_drink b prefs ≤ score_drink a prefs)
    ((generate_candidates (effectiveCategories prefs)).map build_drink_profile)

/-- The nested feasibility conditions of `compute_plan`, as one conjunction. -/
def feasibleOk (prefs : Prefs) (p : Profile) : Bool :=
  decide (p.kcal ≤ pyInt (prefs.maxKcal.getD 999))
    && decide (p.carbs_g ≤ prefs.maxCarbs.getD 999.0)
    && (!(prefs.glutenFreeOnly.getD false) || p.gluten_free)
    && (!(prefs.ketoOnly.getD false) || p.keto)
    && (prefs.allowCaffeine.getD true || !p.caffeine)
    && (prefs.allowCarbonation.getD true || !p.carbonation)

/-- The feasible list of `compute_plan` (filter preserves the sorted order). -/
def feasibleList (prefs : Prefs) : List Profile :=
  (scoredProfiles prefs).filter (feasibleOk prefs)

/-- `compute_plan`: the shared pipeline entry point. -/
def compute_plan (prefs : Prefs) : Plan :=
  let categories := effectiveCategories prefs
  let scored := scoredProfiles prefs
  let feasible := feasibleList prefs
  let fallback_used := if feasible.isEmpty then true else false
  let selected := if feasible.isEmpty then scored.take 5 else feasible.take 5
  let advice := if fallback_used then some (fallback_suggestions prefs categories) else none
  build_plan selected prefs fallback_used advice

/-- Per-component calorie contribution as accumulated by the loop. -/
def compKcal (c : String × ℚ) : ℚ := (component_kcal_and_carbs c.1 c.2).1

/-- Per-component carbohydrate contribution as accumulated by the loop. -/
def compCarbs (c : String × ℚ) : ℚ := (component_kcal_and_carbs c.1 c.2).2

/-- Per-component volume contribution (ounces) as accumulated by the loop. -/
def compVol (c : String × ℚ) : ℚ :=
  match find_base c.1 with
  | some base => base.serving_oz * c.2
  | none => c.2

/-- Per-component alcohol volume contribution (mL) as accumulated by the loop. -/
def compAlc (c : String × ℚ) : ℚ :=
  match find_base c.1 with
  | some base => base.serving_oz * c.2 * OZ_TO_ML * (base.abv_pct / 100.0)
  | none => 0

/-- Per-component carbonation flag as OR-accumulated by the loop. -/
def compCarbonation (c : String × ℚ) : Bool :=
  match find_base c.1 with
  | some base => base.carbonation
  | none => match mixerFind c.1 with
            | some m => m.carbonation
            | none => false

/-- Per-component caffeine flag as OR-accumulated by the loop. -/
def compCaffeine (c : String × ℚ) : Bool :=
  match find_base c.1 with
  | some base => base.caffeine
  | none => match mixerFind c.1 with
            | some m => m.caffeine
            | none => false

/-- Per-component gluten-free flag as AND-accumulated by the loop. -/
def compGf (c : String × ℚ) : Bool :=
  match find_base c.1 with
  | some base => base.gluten_free
  | none => true

/-- Per-component keto flag as AND-accumulated by the loop. -/
def compKeto (c : String × ℚ) : Bool :=
  match find_base c.1 with
  | some base => base.keto_friendly
  | none => true

/-- One loop iteration updates every accumulator by its per-component
contribution, independently of the other accumulators. -/
theorem stepComp_eq (s : AccState) (c : String × ℚ) :
    stepComp s c =
      { kcal := s.kcal + compKcal c, carbs := s.carbs + compCarbs c,
        total_volume_oz := s.total_volume_oz + compVol c,
        alcohol_ml := s.alcohol_ml + compAlc c,
        carbonation := s.carbonation || compCarbonation c,
        caffeine := s.caffeine || compCaffeine c,
        gluten_free := s.gluten_free && compGf c,
        keto := s.keto && compKeto c } := by
  unfold stepComp compKcal compCarbs compVol compAlc compCarbonation compCaffeine compGf compKeto
  cases hb : find_base c.1 with
  | some base => simp [hb, mul_assoc]
  | none =>
    cases hm : mixerFind c.1 with
    | some m => simp [hb, hm]
    | none => simp [hb, hm]

/-- The whole loop adds the summed contributions to the initial state. -/
theorem buildAcc_eq (l : List (String × ℚ)) (s : AccState) :
    buildAcc l s =
      { kcal := s.kcal + (l.map compKcal).sum, carbs := s.carbs + (l.map compCarbs).sum,
        total_volume_oz := s.total_volume_oz + (l.map compVol).sum,
        alcohol_ml := s.alcohol_ml + (l.map compAlc).sum,
        carbonation := s.carbonation || l.any compCarbonation,
        caffeine := s.caffeine || l.any compCaffeine,
        gluten_free := s.gluten_free && l.all compGf,
        keto := s.keto && l.all compKeto } := by
  induction l generalizing s with
  | nil => cases s; simp [buildAcc]
  | cons c t ih =>
    rw [buildAcc, stepComp_eq, ih]
    simp [add_assoc, Bool.or_assoc, Bool.and_assoc]

/-- `build_drink_profile` in closed form: every numeric output is a single
rounding of a sum of per-component contributions, except that the calorie
contribution of a base-ingredient component is itself the integer-rounded
`Drink.total_kcal` times the quantity (see `component_kcal_and_carbs`). -/
theorem build_drink_profile_eq (r : Recipe) :
    build_drink_profile r =
      { name := r.name,
        kcal := pyRound ((r.components.map compKcal).sum),
        carbs_g := pyRound1 ((r.components.map compCarbs).sum),
        abv_pct := pyRound1
          (if (r.components.map compVol).sum > 0 then
            ((r.components.map compAlc).sum / ((r.components.map compVol).sum * OZ_TO_ML)) * 100.0
          else 0.0),
        order := r.order, tags := r.tags,
        carbonation := r.components.any compCarbonation,
        caffeine := r.components.any compCaffeine,
        gluten_free := r.components.all compGf,
        keto := r.components.all compKeto } := by
  unfold build_drink_profile
  rw [buildAcc_eq]
  simp [initAcc]

/-- C3 counterexample: under requested categories `["wine"]`, the candidate
pool does contain a recipe whose only component is the champagne base
ingredient, yet no retained recipe has any component whose name contains
"champagne": the wine branch of the code matches only the substring "wine". -/
theorem c3_counterexample :
    (∃ r ∈ candidatePool ["wine"],
        r.components.any (fun c => strContains c.1.toLower "champagne") = true) ∧
    ¬ ∃ r ∈ generate_candidates ["wine"],
        r.components.any (fun c => strContains c.1.toLower "champagne") = true := by
  with_unfolding_all decide

/-- C3 (amended): with requested categories `["wine"]`, candidate filtering
retains exactly the recipes having some component name that contains "wine"
as a case-insensitive substring; names containing only "champagne" are not
retained. -/
theorem c3_wine_match :
    generate_candidates ["wine"] =
      (candidatePool ["wine"]).filter
        (fun r => r.components.any (fun c => strContains c.1.toLower "wine")) := by
  with_unfolding_all decide

/-- C4 counterexample: an unknown component is not fully ignored — it still
adds its quantity to the total volume, so the ABV of the profile changes
when it is removed (5.2% with a 10 oz unknown filler vs 40.0% without). -/
theorem c4_counterexample :
    (build_drink_profile ⟨"t", [("Vodka (1.5 oz)", 1.0), ("mystery", 10.0)], [], "t"⟩).abv_pct
      ≠ (build_drink_profile ⟨"t", [("Vodka (1.5 oz)", 1.0)], [], "t"⟩).abv_pct := by
  with_unfolding_all decide

/-- C4 (amended): a component whose name resolves to neither a base
ingredient nor a mixer contributes zero calories and carbs and leaves all
four derived flags unchanged, and no error is raised (total function); but
its quantity still enters the total volume, so `abv_pct` may change (see
`c4_counterexample`).  Here: kcal, carbs and flags agree between a recipe
with the unknown component and the same recipe with it removed. -/
theorem c4_unknown_component (n o : String) (tg : List String) (nm : String) (q : ℚ)
    (pre post : List (String × ℚ))
    (h1 : find_base nm = none) (h2 : mixerFind nm = none) :
    component_kcal_and_carbs nm q = (0.0, 0.0) ∧
    ((build_drink_profile ⟨n, pre ++ (nm, q) :: post, tg, o⟩).kcal
        = (build_drink_profile ⟨n, pre ++ post, tg, o⟩).kcal
      ∧ (build_drink_profile ⟨n, pre ++ (nm, q) :: post, tg, o⟩).carbs_g
        = (build_drink_profile ⟨n, pre ++ post, tg, o⟩).carbs_g
      ∧ (build_drink_profile ⟨n, pre ++ (nm, q) :: post, tg, o⟩).carbonation
        = (build_drink_profile ⟨n, pre ++ post, tg, o⟩).carbonation
      ∧ (build_drink_profile ⟨n, pre ++ (nm, q) :: post, tg, o⟩).caffeine
        = (build_drink_profile ⟨n, pre ++ post, tg, o⟩).caffeine
      ∧ (build_drink_profile ⟨n, pre ++ (nm, q) :: post, tg, o⟩).gluten_free
        = (build_drink_profile ⟨n, pre ++ post, tg, o⟩).gluten_free
      ∧ (build_drink_profile ⟨n, pre ++ (nm, q) :: post, tg, o⟩).keto
        = (build_drink_profile ⟨n, pre ++ post, tg, o⟩).keto) := by
  have hk : component_kcal_and_carbs nm q = (0.0, 0.0) := by
    unfold component_kcal_and_carbs
    rw [h1, h2]
  refine ⟨hk, ?_, ?_, ?_, ?_, ?_, ?_⟩ <;>
    rw [build_drink_profile_eq, build_drink_profile_eq] <;>
    simp [compKcal, compCarbs, compCarbonation, compCaffeine, compGf, compKeto, hk, h1, h2,
      zeroRatScientific]

/-- C4 witness: the amended statement at a concrete unknown component
("mystery", 10 oz) appended to a vodka pour. -/
theorem c4_witness :
    (find_base "mystery" = none ∧ mixerFind "mystery" = none) ∧
    (component_kcal_and_carbs "mystery" 10.0 = (0.0, 0.0) ∧
      ((build_drink_profile ⟨"t", [("Vodka (1.5 oz)", 1.0)] ++ ("mystery", (10.0:ℚ)) :: [], [], "t"⟩).kcal
          = (build_drink_profile ⟨"t", [("Vodka (1.5 oz)", 1.0)] ++ [], [], "t"⟩).kcal
        ∧ (build_drink_profile ⟨"t", [("Vodka (1.5 oz)", 1.0)] ++ ("mystery", (10.0:ℚ)) :: [], [], "t"⟩).carbs_g
          = (build_drink_profile ⟨"t", [("Vodka (1.5 oz)", 1.0)] ++ [], [], "t"⟩).carbs_g
        ∧ (build_drink_profile ⟨"t", [("Vodka (1.5 oz)", 1.0)] ++ ("mystery", (10.0:ℚ)) :: [], [], "t"⟩).carbonation
          = (build_drink_profile ⟨"t", [("Vodka (1.5 oz)", 1.0)] ++ [], [], "t"⟩).carbonation
        ∧ (build_drink_profile ⟨"t", [("Vodka (1.5 oz)", 1.0)] ++ ("mystery", (10.0:ℚ)) :: [], [], "t"⟩).caffeine
          = (build_drink_profile ⟨"t", [("Vodka (1.5 oz)", 1.0)] ++ [], [], "t"⟩).caffeine
        ∧ (build_drink_profile ⟨"t", [("Vodka (1.5 oz)", 1.0)] ++ ("mystery", (10.0:ℚ)) :: [], [], "t"⟩).gluten_free
          = (build_drink_profile ⟨"t", [("Vodka (1.5 oz)", 1.0)] ++ [], [], "t"⟩).gluten_free
        ∧ (build_drink_profile ⟨"t", [("Vodka (1.5 oz)", 1.0)] ++ ("mystery", (10.0:ℚ)) :: [], [], "t"⟩).keto
          = (build_drink_profile ⟨"t", [("Vodka (1.5 oz)", 1.0)] ++ [], [], "t"⟩).keto)) :=
  ⟨⟨by with_unfolding_all decide, by with_unfolding_all decide⟩,
    c4_unknown_component "t" "t" [] "mystery" 10.0 [("Vodka (1.5 oz)", 1.0)] []
      (by with_unfolding_all decide) (by with_unfolding_all decide)⟩

/-- The per-component unrounded calorie contribution of the spec (§4.1): for a
base ingredient, alcohol grams times 7 kcal/g plus residual calories, times
quantity, with no intermediate rounding.  Modelled from the spec for
comparison against the `component_kcal_and_carbs` of the code. -/
def specUnroundedKcal (nm : String) (units : ℚ) : ℚ :=
  match find_base nm with
  | some base => (base.alcohol_kcal + base.extra_cals) * units
  | none =>
    match mixerFind nm with
    | some mx => mx.kcal_per_oz * units
    | none => 0

/-- C5 counterexample: for the recipe consisting of the light beer base with
quantity 2, the integer rounding of the sum of unrounded contributions is
205, but the code produces 204, because each base contribution is rounded
to an integer (102) before summation. -/
theorem c5_counterexample :
    pyRound (([(("Light beer (12 oz)" : String), (2.0:ℚ))].map
        (fun c => specUnroundedKcal c.1 c.2)).sum) = 205 ∧
    (build_drink_profile ⟨"x", [("Light beer (12 oz)", 2.0)], [], "x"⟩).kcal = 204 := by
  with_unfolding_all decide

/-- C5 (amended): the kcal of the Profile is the integer rounding of the sum of
per-component contributions in which each base-ingredient contribution is
itself already rounded to an integer (`round(alcohol_kcal + extra_cals)`
times quantity) while mixer contributions are unrounded; carbs are summed
unrounded and rounded once to one decimal at the end; ABV is rounded once
to one decimal at the end. -/
theorem c5_rounding (r : Recipe) :
    (build_drink_profile r).kcal =
      pyRound ((r.components.map (fun c =>
        match find_base c.1 with
        | some base => ((pyRound (base.alcohol_kcal + base.extra_cals) : ℤ) : ℚ) * c.2
        | none =>
          match mixerFind c.1 with
          | some mx => mx.kcal_per_oz * c.2
          | none => 0)).sum) ∧
    (build_drink_profile r).carbs_g =
      pyRound1 ((r.components.map (fun c =>
        match find_base c.1 with
        | some base => (base.carbs_g.getD 0.0) * c.2
        | none =>
          match mixerFind c.1 with
          | some mx => mx.carbs_per_oz * c.2
          | none => 0)).sum) ∧
    (build_drink_profile r).abv_pct =
      pyRound1
        (if (r.components.map compVol).sum > 0 then
          ((r.components.map compAlc).sum / ((r.components.map compVol).sum * OZ_TO_ML)) * 100.0
        else 0.0) := by
  have hmapk : ∀ c : String × ℚ, compKcal c =
      (match find_base c.1 with
        | some base => ((pyRound (base.alcohol_kcal + base.extra_cals) : ℤ) : ℚ) * c.2
        | none =>
          match mixerFind c.1 with
          | some mx => mx.kcal_per_oz * c.2
          | none => 0) := by
    intro c
    unfold compKcal component_kcal_and_carbs Drink.total_kcal
    cases find_base c.1 with
    | some base => simp
    | none => cases mixerFind c.1 with
      | some mx => simp
      | none => simp [zeroRatScientific]
  have hmapc : ∀ c : String × ℚ, compCarbs c =
      (match find_base c.1 with
        | some base => (base.carbs_g.getD 0.0) * c.2
        | none =>
          match mixerFind c.1 with
          | some mx => mx.carbs_per_oz * c.2
          | none => 0) := by
    intro c
    unfold compCarbs component_kcal_and_carbs
    cases find_base c.1 with
    | some base => simp
    | none => cases mixerFind c.1 with
      | some mx => simp
      | none => simp [zeroRatScientific]
  rw [build_drink_profile_eq]
  refine ⟨?_, ?_, rfl⟩
  · simp only [List.map_inj_left.mpr (fun c _ => hmapk c)]
  · simp only [List.map_inj_left.mpr (fun c _ => hmapc c)]

/-- Boolean form of an implication guard `not flag or value`. -/
theorem boolGuard_iff (a b : Bool) : (!a || b) = true ↔ (a = true → b = true) := by
  cases a <;> cases b <;> simp

/-- Boolean form of an implication guard `allowed or not value`. -/
theorem boolAllow_iff (a b : Bool) : (a || !b) = true ↔ (a = false → b = false) := by
  cases a <;> cases b <;> simp

/-- The feasibility test of `compute_plan`, unfolded to its six conditions. -/
theorem feasibleOk_iff (prefs : Prefs) (p : Profile) :
    feasibleOk prefs p = true ↔
      (p.kcal ≤ pyInt (prefs.maxKcal.getD 999)
        ∧ p.carbs_g ≤ prefs.maxCarbs.getD 999.0
        ∧ (prefs.glutenFreeOnly.getD false = true → p.gluten_free = true)
        ∧ (prefs.ketoOnly.getD false = true → p.keto = true)
        ∧ (prefs.allowCaffeine.getD true = false → p.caffeine = false)
        ∧ (prefs.allowCarbonation.getD true = false → p.carbonation = false)) := by
  unfold feasibleOk
  simp only [Bool.and_eq_true, decide_eq_true_iff, boolGuard_iff, boolAllow_iff, and_assoc]

/-- The fallback flag of the plan is exactly the emptiness of the feasible list. -/
theorem compute_plan_fallback (prefs : Prefs) :
    (compute_plan prefs).fallback_used = (feasibleList prefs).isEmpty := by
  unfold compute_plan build_plan
  cases h : (feasibleList prefs).isEmpty <;> simp [h]

/-- Every pick of a non-fallback plan comes from the feasible list. -/
theorem mem_picks_feasible (prefs : Prefs) (p : Profile)
    (hf : (compute_plan prefs).fallback_used = false)
    (hp : p ∈ (compute_plan prefs).picks) :
    p ∈ feasibleList prefs ∧ feasibleOk prefs p = true := by
  have hne : (feasibleList prefs).isEmpty = false := by
    rw [compute_plan_fallback] at hf
    exact hf
  have hmem : p ∈ feasibleList prefs := by
    unfold compute_plan build_plan at hp
    simp only [hne, if_false, Bool.false_eq_true] at hp
    exact List.take_subset _ _ (List.take_subset _ _ hp)
  refine ⟨hmem, ?_⟩
  exact (List.mem_filter.mp hmem).2

/-- Truncation toward zero is the identity on integers. -/
theorem pyInt_intCast (k : ℤ) : pyInt (k : ℚ) = k := by
  unfold pyInt
  split
  · rw [Int.ceil_intCast]
  · rw [Int.floor_intCast]

/-- Preferences of the C1 scenario: spirit/cocktail categories with a
requested vodka spirit filter. -/
def c1prefs : Prefs := { categories := ["spirit", "cocktail"], spirits := ["vodka"] }

/-- C1 counterexample: with categories `["spirit","cocktail"]` and spirits
`["vodka"]`, the returned plan contains a pick ("Gin and diet tonic") whose
name and order text do not contain "vodka": the code never reads the
`spirits` preference. -/
theorem c1_counterexample :
    c1prefs.spirits ≠ [] ∧
    ¬ ∀ p ∈ (compute_plan c1prefs).picks,
        (strContains p.name.toLower "vodka" = true
          ∨ strContains p.order.toLower "vodka" = true) := by
  with_unfolding_all decide

/-- C1 (amended): the `spirits` preference is ignored entirely — the plan is
identical whatever value the `spirits` key holds, so picks are constrained
by the requested categories only and need not mention a requested spirit. -/
theorem c1_spirits_ignored (prefs : Prefs) (s : List String) :
    compute_plan { prefs with spirits := s } = compute_plan prefs := rfl

/-- Preferences of the C2 counterexample: beer categories, three drinks,
`max_kcal` and `max_carbs` omitted. -/
def c2prefs : Prefs := { categories := ["beer"], drinkCount := some 3 }

/-- C2 counterexample: with `max_kcal`/`max_carbs` omitted, the plan is not
a fallback, yet a pick (the regular lager, 158 kcal, 13 g carbs) violates
kcal ≤ 130 and carbs ≤ 8.0: the defaults in the code are 999, not 130/8.0. -/
theorem c2_counterexample :
    (compute_plan c2prefs).fallback_used = false ∧
    ¬ ∀ p ∈ (compute_plan c2prefs).picks, (p.kcal ≤ 130 ∧ p.carbs_g ≤ 8.0) := by
  with_unfolding_all decide

/-- C2 (amended): when the preferences omit `max_kcal` and `max_carbs`, the
pipeline behaves as if `max_kcal = 999` and `max_carbs = 999.0`: whenever
the returned plan has `fallback_used = false`, every picked profile
satisfies kcal ≤ 999 and carbs ≤ 999.0. -/
theorem c2_default_limits (prefs : Prefs)
    (h1 : prefs.maxKcal = none) (h2 : prefs.maxCarbs = none)
    (h3 : (compute_plan prefs).fallback_used = false) :
    ∀ p ∈ (compute_plan prefs).picks, p.kcal ≤ 999 ∧ p.carbs_g ≤ 999.0 := by
  intro p hp
  have h := (mem_picks_feasible prefs p h3 hp).2
  rw [feasibleOk_iff, h1, h2] at h
  have hcast : ((999 : ℤ) : ℚ) = (999 : ℚ) := by norm_num
  have h999 : pyInt (999 : ℚ) = 999 := by rw [← hcast, pyInt_intCast]
  simp only [Option.getD_none, h999] at h
  have hc : p.carbs_g ≤ (999.0 : ℚ) := by
    have := h.2.1
    norm_num at this ⊢
    exact this
  exact ⟨h.1, hc⟩

/-- C2 witness: wine-only preferences with both limits omitted produce a
non-fallback plan whose picks respect the 999/999.0 defaults. -/
theorem c2_witness :
    (compute_plan { categories := ["wine"] } : Plan).fallback_used = false ∧
    (∀ p ∈ (compute_plan { categories := ["wine"] } : Plan).picks,
      p.kcal ≤ 999 ∧ p.carbs_g ≤ 999.0) :=
  ⟨by with_unfolding_all decide,
    c2_default_limits { categories := ["wine"] } rfl rfl (by with_unfolding_all decide)⟩

/-- Python `int()` truncation is monotone. -/
theorem pyInt_mono {a b : ℚ} (h : a ≤ b) : pyInt a ≤ pyInt b := by
  unfold pyInt
  split_ifs with ha hb hb
  · exact Int.ceil_le_ceil h
  · have h1 : (⌈a⌉ : ℤ) ≤ 0 := Int.ceil_le.mpr (by exact_mod_cast le_of_lt ha)
    have h2 : (0 : ℤ) ≤ ⌊b⌋ := Int.le_floor.mpr (by exact_mod_cast not_lt.mp hb)
    omega
  · exact absurd (lt_of_le_of_lt h hb) ha
  · exact Int.floor_le_floor h

/-- C9: the feasible set is monotone in `max_kcal` — any profile in the
feasible list under limit A also belongs to the feasible list under any
larger limit B, all other preferences unchanged. -/
theorem c9_monotone (prefs : Prefs) (A B : ℚ) (p : Profile) (hAB : A < B)
    (hmem : p ∈ feasibleList { prefs with maxKcal := some A }) :
    p ∈ feasibleList { prefs with maxKcal := some B } := by
  have h := List.mem_filter.mp hmem
  have hscored : p ∈ scoredProfiles { prefs with maxKcal := some B } := by
    have h1 : p ∈ (generate_candidates
        (effectiveCategories { prefs with maxKcal := some A })).map build_drink_profile := by
      have := h.1
      unfold scoredProfiles at this
      exact (List.mem_insertionSort _).mp this
    unfold scoredProfiles
    exact (List.mem_insertionSort _).mpr h1
  have hokA := (feasibleOk_iff _ p).mp h.2
  refine List.mem_filter.mpr ⟨hscored, (feasibleOk_iff _ p).mpr ?_⟩
  refine ⟨?_, hokA.2.1, hokA.2.2.1, hokA.2.2.2.1, hokA.2.2.2.2.1, hokA.2.2.2.2.2⟩
  have hA : p.kcal ≤ pyInt A := hokA.1
  exact le_trans hA (pyInt_mono (le_of_lt hAB))

/-- Preferences of the C9 witness scenario. -/
def c9prefs : Prefs := { categories := ["wine"] }

/-- C9 witness: the dry-white-wine profile is feasible at `max_kcal = 130`
and hence also at `max_kcal = 200`. -/
theorem c9_witness :
    build_drink_profile ⟨"Dry white wine (5 oz)", [("Dry white wine (5 oz)", 1.0)],
        ["simple", "restaurant"], "Five ounces of your driest white wine."⟩
      ∈ feasibleList { c9prefs with maxKcal := some 200 } :=
  c9_monotone c9prefs 130 200 _ (by norm_num) (by with_unfolding_all decide)

/-- C8: whenever the candidate generator returns a non-empty recipe list,
the picks list of the plan is non-empty — the fallback keeps the top five
scored profiles and the drink count is clamped to at least one. -/
theorem c8_nonempty_picks (prefs : Prefs)
    (h : generate_candidates (effectiveCategories prefs) ≠ []) :
    (compute_plan prefs).picks ≠ [] := by
  have hscored : scoredProfiles prefs ≠ [] := by
    intro hcon
    apply h
    unfold scoredProfiles at hcon
    have hperm := List.perm_insertionSort
      (fun a b => score_drink b prefs ≤ score_drink a prefs)
      ((generate_candidates (effectiveCategories prefs)).map build_drink_profile)
    rw [hcon] at hperm
    have hmapnil := hperm.nil_eq.symm
    exact List.map_eq_nil_iff.mp hmapnil
  have hn : (max 1 (min 4 (prefs.drinkCount.getD 1))).toNat ≠ 0 := by
    intro h0
    rw [Int.toNat_eq_zero] at h0
    have h1 : (1 : ℤ) ≤ max 1 (min 4 (prefs.drinkCount.getD 1)) := le_max_left _ _
    omega
  unfold compute_plan build_plan
  cases hfe : (feasibleList prefs).isEmpty with
  | true =>
    simp only [hfe, if_true]
    intro hcon
    rcases List.take_eq_nil_iff.mp hcon with h0 | h5
    · exact hn h0
    · rcases List.take_eq_nil_iff.mp h5 with h50 | hsn
      · omega
      · exact hscored hsn
  | false =>
    have hfeas : feasibleList prefs ≠ [] := by
      intro hcon
      rw [hcon] at hfe
      simp at hfe
    simp only [hfe, if_false, Bool.false_eq_true]
    intro hcon
    rcases List.take_eq_nil_iff.mp hcon with h0 | h5
    · exact hn h0
    · rcases List.take_eq_nil_iff.mp h5 with h50 | hsn
      · omega
      · exact hfeas hsn

/-- C8 witness: wine-only preferences have a non-empty candidate list and a
non-empty picks list. -/
theorem c8_witness :
    (compute_plan { categories := ["wine"] } : Plan).picks ≠ [] :=
  c8_nonempty_picks { categories := ["wine"] } (by with_unfolding_all decide)

/-- C7: with numeric limits supplied, the plan is non-fallback exactly when
some scored profile passes all hard constraints; every pick of a
non-fallback plan satisfies all six constraints; and the feasible list is
ordered by descending score. -/
theorem c7_feasibility (prefs : Prefs) (K : ℤ) (C : ℚ)
    (hK : prefs.maxKcal = some (K : ℚ)) (hC : prefs.maxCarbs = some C) :
    ((compute_plan prefs).fallback_used = false ↔
        ∃ p ∈ scoredProfiles prefs, feasibleOk prefs p = true)
    ∧ (∀ p ∈ (compute_plan prefs).picks, (compute_plan prefs).fallback_used = false →
        p.kcal ≤ K ∧ p.carbs_g ≤ C
          ∧ (prefs.glutenFreeOnly.getD false = true → p.gluten_free = true)
          ∧ (prefs.ketoOnly.getD false = true → p.keto = true)
          ∧ (prefs.allowCaffeine.getD true = false → p.caffeine = false)
          ∧ (prefs.allowCarbonation.getD true = false → p.carbonation = false))
    ∧ List.Pairwise (fun a b => score_drink b prefs ≤ score_drink a prefs)
        (feasibleList prefs) := by
  refine ⟨?_, ?_, ?_⟩
  · rw [compute_plan_fallback]
    constructor
    · intro hf
      cases hfe : feasibleList prefs with
      | nil => rw [hfe] at hf; simp at hf
      | cons a t =>
        have ha : a ∈ feasibleList prefs := by rw [hfe]; exact List.mem_cons_self a t
        have hm := List.mem_filter.mp ha
        exact ⟨a, hm.1, hm.2⟩
    · rintro ⟨p, hmem, hok⟩
      have hmemf : p ∈ feasibleList prefs := List.mem_filter.mpr ⟨hmem, hok⟩
      cases hfe : feasibleList prefs with
      | nil => rw [hfe] at hmemf; simp at hmemf
      | cons a t => rfl
  · intro p hp hf
    have hok := (mem_picks_feasible prefs p hf hp).2
    rw [feasibleOk_iff, hK, hC] at hok
    simp only [Option.getD_some] at hok
    refine ⟨?_, hok.2.1, hok.2.2.1, hok.2.2.2.1, hok.2.2.2.2.1, hok.2.2.2.2.2⟩
    have hkc := hok.1
    rwa [pyInt_intCast] at hkc
  · haveI ht : IsTotal Profile (fun a b => score_drink b prefs ≤ score_drink a prefs) :=
      ⟨fun a b => le_total _ _⟩
    haveI htr : IsTrans Profile (fun a b => score_drink b prefs ≤ score_drink a prefs) :=
      ⟨fun _ _ _ hab hbc => le_trans hbc hab⟩
    have hs := List.sorted_insertionSort
      (fun a b => score_drink b prefs ≤ score_drink a prefs)
      ((generate_candidates (effectiveCategories prefs)).map build_drink_profile)
    exact List.Pairwise.sublist (List.filter_sublist _) hs

/-- Preferences of the C7 witness scenario. -/
def c7prefs : Prefs := { categories := ["wine"], maxKcal := some 200, maxCarbs := some 10 }

/-- C7 witness: the feasibility characterisation at concrete wine-only
preferences with `max_kcal = 200` and `max_carbs = 10`. -/
theorem c7_witness :
    ((compute_plan c7prefs).fallback_used = false ↔
        ∃ p ∈ scoredProfiles c7prefs, feasibleOk c7prefs p = true)
    ∧ (∀ p ∈ (compute_plan c7prefs).picks, (compute_plan c7prefs).fallback_used = false →
        p.kcal ≤ 200 ∧ p.carbs_g ≤ 10
          ∧ (c7prefs.glutenFreeOnly.getD false = true → p.gluten_free = true)
          ∧ (c7prefs.ketoOnly.getD false = true → p.keto = true)
          ∧ (c7prefs.allowCaffeine.getD true = false → p.caffeine = false)
          ∧ (c7prefs.allowCarbonation.getD true = false → p.carbonation = false))
    ∧ List.Pairwise (fun a b => score_drink b c7prefs ≤ score_drink a c7prefs)
        (feasibleList c7prefs) :=
  c7_feasibility c7prefs 200 10 (by with_unfolding_all decide) (by with_unfolding_all decide)

/-- The advisory of the plan is present exactly on the fallback path. -/
theorem compute_plan_advice (prefs : Prefs) :
    (compute_plan prefs).advice =
      if (feasibleList prefs).isEmpty then
        some (fallback_suggestions prefs (effectiveCategories prefs))
      else none := by
  unfold compute_plan build_plan
  cases h : (feasibleList prefs).isEmpty <;> simp [h]

/-- The effective category list is never empty. -/
theorem effectiveCategories_ne_empty (prefs : Prefs) :
    (effectiveCategories prefs).isEmpty = false := by
  unfold effectiveCategories
  cases h : prefs.categories.isEmpty with
  | true => simp
  | false => simp [h]

/-- C6 (amended): on the fallback path the advisory message is the fixed
string and the suggestions are exactly those of the SIX source conditions
that hold — the five listed in the spec plus a sixth ("toggle sugar-free
mixers") that fires whenever `sugar_free_mixers` is absent or false —
appended in source order and capped at five. -/
theorem c6_advisory (prefs : Prefs) (h : (compute_plan prefs).fallback_used = true) :
    (compute_plan prefs).advice = some
      { message := fallbackMessage,
        suggestions := ((if pyInt (prefs.maxKcal.getD 999) < 90 then [sug1] else [])
          ++ (if prefs.maxCarbs.getD 999 < 2
                ∧ ((effectiveCategories prefs).contains "wine" = true
                    ∨ (effectiveCategories prefs).contains "seltzer" = true)
              then [sug2] else [])
          ++ (if prefs.allowCarbonation.getD true = false
                ∧ ((effectiveCategories prefs).contains "beer" = true
                    ∨ (effectiveCategories prefs).contains "seltzer" = true)
              then [sug3] else [])
          ++ (if prefs.glutenFreeOnly.getD false = true
                ∧ (effectiveCategories prefs).contains "beer" = true
              then [sug4] else [])
          ++ (if prefs.ketoOnly.getD false = true
                ∧ ((effectiveCategories prefs).contains "beer" = true
                    ∨ (effectiveCategories prefs).contains "wine" = true)
              then [sug5] else [])
          ++ (if prefs.sugarFreeMixers.getD false = false then [sug6] else [])).take 5 } := by
  rw [compute_plan_advice]
  rw [compute_plan_fallback] at h
  rw [h]
  simp only [if_true]
  congr 1
  simp only [fallback_suggestions, effectiveCategories_ne_empty, Bool.false_eq_true, if_false]
  split_ifs <;> simp

/-- Preferences of the C6 scenario: the fallback example from the spec. -/
def c6prefs : Prefs := { categories := ["beer"], maxKcal := some 10, maxCarbs := some 0 }

set_option maxRecDepth 2000 in
/-- The C6 scenario takes the fallback path. -/
theorem c6prefs_fallback : (compute_plan c6prefs).fallback_used = true := by
  with_unfolding_all decide

set_option maxRecDepth 2000 in
/-- C6 counterexample: on a fallback plan the advisory can contain the
sixth suggestion string ("Toggle sugar-free mixers ..."), which is not
among the five conditions the claim lists. -/
theorem c6_counterexample :
    (compute_plan c6prefs).fallback_used = true ∧
    sug6 ∈ ((compute_plan c6prefs).advice.getD ⟨"", []⟩).suggestions ∧
    sug6 ∉ [sug1, sug2, sug3, sug4, sug5] := by
  with_unfolding_all decide

set_option maxRecDepth 2000 in
/-- C6 witness: the advisory of the C6 scenario, via `c6_advisory`, is the
fixed message with suggestions [sug1, sug6]. -/
theorem c6_witness :
    (compute_plan c6prefs).fallback_used = true ∧
    (compute_plan c6prefs).advice
      = some { message := fallbackMessage, suggestions := [sug1, sug6] } := by
  refine ⟨c6prefs_fallback, ?_⟩
  rw [c6_advisory c6prefs c6prefs_fallback]
  with_unfolding_all rfl

/-- The profile of the first preset cocktail (vodka soda with lime), whose
tags include "airport". -/
def vodkaSodaProfile : Profile :=
  build_drink_profile (PRESET_COCKTAILS.headD ⟨"", [], [], ""⟩)

set_option maxRecDepth 2000 in
/-- C10 counterexample: with `pref_category = "Airport"`, which appears
case-insensitively in the tags of the profile (["lowest-cal","easy-order",
"airport"]), the score is NOT 5 points higher than without a preference —
the code compares the preference string case-sensitively against tags and
does not lowercase it before the substring test on the name. -/
theorem c10_counterexample :
    (("Airport" : String) ≠ "") ∧
    (vodkaSodaProfile.tags.any (fun t => t.toLower == "Airport".toLower) = true
      ∨ strContains vodkaSodaProfile.name.toLower "Airport".toLower = true) ∧
    score_drink vodkaSodaProfile { prefCategory := "Airport" }
      ≠ score_drink vodkaSodaProfile { prefCategory := "" } + 5 := by
  with_unfolding_all decide

/-- C10 (amended): with a non-empty `pref_category`, the score is exactly
5 points higher than it would be with no preference precisely when
`pref_category` occurs verbatim (case-sensitively) among the tags of the
profile or as a substring of the lowercased profile name, and is unchanged
otherwise. -/
theorem c10_pref_boost (p : Profile) (prefs : Prefs) (h : prefs.prefCategory ≠ "") :
    score_drink p prefs =
      score_drink p { prefs with prefCategory := "" }
        + (if (p.tags.contains prefs.prefCategory
              || strContains p.name.toLower prefs.prefCategory) = true then (5 : ℚ) else 0) := by
  obtain ⟨cat, sp, mk, mc, dc, sf, ac, acb, gf, ko, pc⟩ := prefs
  have h0 : ¬ (("" : String) ≠ "") := fun hc => hc rfl
  unfold score_drink
  dsimp only
  rw [if_pos h, if_neg h0]
  cases hc : (p.tags.contains pc || strContains p.name.toLower pc) <;> simp [hc]

/-- C10 witness: the amended boost rule at the vodka-soda profile with the
lowercase preference "airport", which matches a tag verbatim. -/
theorem c10_witness :
    score_drink vodkaSodaProfile { prefCategory := "airport" } =
      score_drink vodkaSodaProfile { prefCategory := "" }
        + (if (vodkaSodaProfile.tags.contains "airport"
              || strContains vodkaSodaProfile.name.toLower "airport") = true then (5 : ℚ) else 0) :=
  c10_pref_boost vodkaSodaProfile { prefCategory := "airport" } (by decide)
